import Mathlib

/-!
Shallow embedding of the two structural builders of the
polyteia-connect/polyteia-sdk-python repository:

* the insight/query builders
  - `polyteia_sdk_python/insight_factory.py`:
    `InsightBuilderBase` (shared operations), `InsightBuilder` (current
    schema generation) and `InsightBuilderV3` (deprecated polyteia
    generation), and
  - `gOS_api_sdk/insight_factory.py`: `InsightBuilderV3` (oldest
    generation, no argument validation);
* the report/document builder `gOS_api_sdk/report_factory.py`:
  `ReportBuilder`.

Python mutable objects are modelled by explicit state passing: every
method of a builder becomes a Lean function `State → Option Err × State`
returning the (possibly raised) error together with the state the object
is left in — Python exceptions do not roll back prior attribute
mutations, and `next_column` mutates before raising, so the state is
returned in the error case as well.  `uuid.uuid4()` is modelled by a
deterministic fresh-name counter threaded through the state (the
generated identifiers are opaque tokens whose only role is to be
present).  Python `dict` payloads of heterogeneous shape (join
conditions, filter values, visualization configs) are modelled by a
small JSON value type.
-/

/-- JSON-like values, for the Python `dict`/`list`/scalar payloads that
the builders store opaquely (join conditions, filter comparison values,
visualization configurations). -/
inductive JVal where
  | str (s : String)
  | num (n : Int)
  | boolean (b : Bool)
  | null
  | arr (xs : List JVal)
  | obj (fields : List (String × JVal))
deriving Repr

/-! ## Shared insight-builder data model

The dataclasses `DatasetDef`, `SelectDef`, `WhereDef`, `OrderByDef`
appear identically in both `polyteia_sdk_python/insight_factory.py` and
`gOS_api_sdk/insight_factory.py`; we define them once. -/

/-- `DatasetDef`: dataset reference plus join specification.  The Python
field `join` is the dict `{"type": join_type, "on": join_on}`; we store
its two components directly. -/
structure DatasetDef where
  datasetId : String
  joinType : String
  joinOn : List JVal
deriving Repr

/-- `SelectDef`: one projection. -/
structure SelectDef where
  id : String
  datasetId : String
  columnId : String
  aggregate : Option String
  label : String
deriving Repr

/-- The column dict `{"datasetId": .., "columnId": .., "aggregate": ..}`
built inside `add_filter` and `add_order_by`. -/
structure ColumnRef where
  datasetId : String
  columnId : String
  aggregate : Option String
deriving Repr

/-- `WhereDef`: one predicate. -/
structure WhereDef where
  id : String
  column : ColumnRef
  operator : String
  value : JVal
deriving Repr

/-- `OrderByDef`: one sort specification. -/
structure OrderByDef where
  id : String
  column : ColumnRef
  direction : String
deriving Repr

/-- The mutable part of `query.queryBuilder` shared by every generation:
the four element lists and the optional limit.  (The constant `version`
field is emitted by each generation's `build`.) -/
structure QB where
  datasets : List DatasetDef
  select : List SelectDef
  whereL : List WhereDef
  orderBy : List OrderByDef
  limit : Option Int
deriving Repr

/-- The empty `QueryBuilderDef()` default. -/
def emptyQB : QB :=
  { datasets := [], select := [], whereL := [], orderBy := [], limit := none }

/-- `VariableDef` (current generation only): a parameterized-SQL
variable. -/
structure VariableDef where
  id : String
  name : String
  label : String
  type : String
  inputOption : String
  dropdownOption : String
  availableValuesSource : String
  customValues : String
  defaultValue : Option String
  alwaysRequired : Bool
deriving Repr

/-- `PivotDef` (current generation only); no builder operation ever
mutates it, it is carried to the built output unchanged. -/
structure PivotDef where
  enabled : Bool
  columns : List JVal
  rows : List JVal
  values : List JVal
deriving Repr

/-- Default `PivotDef()`. -/
def defaultPivot : PivotDef :=
  { enabled := false, columns := [], rows := [], values := [] }

/-- Errors raised by insight-builder operations.  The Python code raises
`ValueError`; the specification's taxonomy calls this class of failures
`InvalidArgument`. -/
inductive IErr where
  | invalidArgument
deriving Repr, DecidableEq

/-- `VALID_FILTER_OPERATORS` from `polyteia_sdk_python/insight_factory.py`
(a Python set; modelled as the list of its members, membership being all
that is ever asked of it). -/
def validFilterOperators : List String :=
  ["equals", "not_equals", "like", "not_like", "starts_with", "ends_with",
   "contains", "not_contains", "is_null", "is_not_null", "greater_than",
   "less_than", "greater_or_equals", "less_or_equals", "is_null_or_empty",
   "is_not_null_or_empty", "is_true", "is_false"]

/-- `VALID_MODES` from `polyteia_sdk_python/insight_factory.py`. -/
def validModes : List String := ["queryBuilder", "sqlEditor"]

/-- Deterministic model of `str(uuid.uuid4())`: fresh names from a
counter threaded through builder state. -/
def genId (n : Nat) : String := "id-" ++ toString n

/-- Python truthiness of `a or b` for an optional string argument: the
default `b` is used when the argument is absent or the empty string. -/
def orElseStr (a : Option String) (b : String) : String :=
  match a with
  | some s => if s = "" then b else s
  | none => b

/-- The shared defaulting expression
`dataset_id or (datasets[0].datasetId if datasets else "")`:
first dataset of the list, or the empty string. -/
def firstDatasetId : List DatasetDef → String
  | [] => ""
  | d :: _ => d.datasetId

/-! ## Polyteia shared base: `InsightBuilderBase`

Both polyteia builders (`InsightBuilder` and the deprecated polyteia
`InsightBuilderV3`) inherit these methods; they touch only the fields
present in both `InsightDef` and `InsightDefV3`, collected here in
`PolyCore` (together with the fresh-name counter). -/

/-- State acted on by the shared `InsightBuilderBase` methods. -/
structure PolyCore where
  solutionId : String
  name : String
  slug : String
  description : String
  mode : String
  qb : QB
  config : Option JVal
  ctr : Nat
deriving Repr

/-- Fresh `PolyCore` as produced by `InsightDef()` / `InsightDefV3()`
defaults. -/
def polyCoreInit : PolyCore :=
  { solutionId := "", name := "", slug := "", description := "",
    mode := "queryBuilder", qb := emptyQB, config := none, ctr := 0 }

/-- `InsightBuilderBase.set_solution_id`. -/
def polySetSolutionId (s : String) (c : PolyCore) : Option IErr × PolyCore :=
  (none, { c with solutionId := s })

/-- `InsightBuilderBase.set_name`. -/
def polySetName (s : String) (c : PolyCore) : Option IErr × PolyCore :=
  (none, { c with name := s })

/-- `InsightBuilderBase.set_slug`. -/
def polySetSlug (s : String) (c : PolyCore) : Option IErr × PolyCore :=
  (none, { c with slug := s })

/-- `InsightBuilderBase.set_description`. -/
def polySetDescription (s : String) (c : PolyCore) : Option IErr × PolyCore :=
  (none, { c with description := s })

/-- `InsightBuilderBase.set_mode`: raises `ValueError` when the mode is
not a member of `VALID_MODES`, otherwise sets `query.mode`. -/
def polySetMode (m : String) (c : PolyCore) : Option IErr × PolyCore :=
  if m ∈ validModes then (none, { c with mode := m })
  else (some .invalidArgument, c)

/-- `InsightBuilderBase.add_dataset` (`join_on or []` collapses `None`
and the empty list to `[]`). -/
def polyAddDataset (datasetId : String) (joinType : String)
    (joinOn : Option (List JVal)) (c : PolyCore) : Option IErr × PolyCore :=
  let ds : DatasetDef :=
    { datasetId := datasetId, joinType := joinType, joinOn := joinOn.getD [] }
  (none, { c with qb := { c.qb with datasets := c.qb.datasets ++ [ds] } })

/-- `InsightBuilderBase.add_select`: the dataset reference defaults to
the first dataset in the list (empty string when none), the label to the
column id, the id to a fresh token; the projection is appended. -/
def polyAddSelect (columnId : String) (datasetId : Option String)
    (aggregate : Option String) (label : Option String) (idArg : Option String)
    (c : PolyCore) : Option IErr × PolyCore :=
  let dsId := orElseStr datasetId (firstDatasetId c.qb.datasets)
  let sel : SelectDef :=
    { id := orElseStr idArg (genId c.ctr), datasetId := dsId,
      columnId := columnId, aggregate := aggregate,
      label := orElseStr label columnId }
  (none, { c with qb := { c.qb with select := c.qb.select ++ [sel] },
                  ctr := c.ctr + 1 })

/-- `InsightBuilderBase.add_filter`: raises `ValueError` when the
operator is not in `VALID_FILTER_OPERATORS` (before touching any other
state), otherwise appends the predicate with the shared dataset
defaulting. -/
def polyAddFilter (columnId : String) (operator : String) (value : JVal)
    (datasetId : Option String) (c : PolyCore) : Option IErr × PolyCore :=
  if operator ∈ validFilterOperators then
    let dsId := orElseStr datasetId (firstDatasetId c.qb.datasets)
    let w : WhereDef :=
      { id := genId c.ctr,
        column := { datasetId := dsId, columnId := columnId, aggregate := none },
        operator := operator, value := value }
    (none, { c with qb := { c.qb with whereL := c.qb.whereL ++ [w] },
                    ctr := c.ctr + 1 })
  else (some .invalidArgument, c)

/-- `InsightBuilderBase.add_order_by`. -/
def polyAddOrderBy (columnId : String) (datasetId : Option String)
    (aggregate : Option String) (direction : String)
    (c : PolyCore) : Option IErr × PolyCore :=
  let dsId := orElseStr datasetId (firstDatasetId c.qb.datasets)
  let ob : OrderByDef :=
    { id := genId c.ctr,
      column := { datasetId := dsId, columnId := columnId, aggregate := aggregate },
      direction := direction }
  (none, { c with qb := { c.qb with orderBy := c.qb.orderBy ++ [ob] },
                  ctr := c.ctr + 1 })

/-- `InsightBuilderBase.set_limit`: raises `ValueError` for a negative
limit, otherwise stores it. -/
def polySetLimit (limit : Int) (c : PolyCore) : Option IErr × PolyCore :=
  if limit < 0 then (some .invalidArgument, c)
  else (none, { c with qb := { c.qb with limit := some limit } })

/-- `InsightBuilderBase.add_filter_defs`: bulk extend, no validation. -/
def polyAddFilterDefs (fs : List WhereDef) (c : PolyCore) : Option IErr × PolyCore :=
  (none, { c with qb := { c.qb with whereL := c.qb.whereL ++ fs } })

/-- `InsightBuilderBase.add_select_defs`: bulk extend, no validation. -/
def polyAddSelectDefs (ss : List SelectDef) (c : PolyCore) : Option IErr × PolyCore :=
  (none, { c with qb := { c.qb with select := c.qb.select ++ ss } })

/-- `InsightBuilderBase.set_config`: stores an arbitrary visualization
configuration.  The chart helpers `set_table`, `set_bar_chart`,
`set_line_chart`, `set_pie_chart` and `set_map_chart` of the base class
differ from it only in the concrete dict they store — each is
`set_config` of a value computed purely from its arguments — so this
operation (quantified over the stored value) also covers their effect on
builder state. -/
def polySetConfig (v : JVal) (c : PolyCore) : Option IErr × PolyCore :=
  (none, { c with config := some v })

/-- The `big-number` config dict built by both generations'
`set_big_number`. -/
def bigNumberConfig (m : SelectDef) (aggregate title subtitle : String) : JVal :=
  .obj [("type", .str "big-number"), ("title", .str title),
        ("subtitle", .str subtitle),
        ("measure", .obj
          [("column", .obj
            [("id", .str m.id), ("key", .str m.columnId),
             ("label", .str m.label), ("type", .str "number")]),
           ("aggregate", .str aggregate)]),
        ("filters", .arr [])]

/-- `InsightBuilderBase.set_big_number`: stores the big-number config;
unlike the gOS generation's version it touches nothing else. -/
def polySetBigNumber (m : SelectDef) (aggregate title subtitle : String)
    (c : PolyCore) : Option IErr × PolyCore :=
  (none, { c with config := some (bigNumberConfig m aggregate title subtitle) })

/-- Operations of the shared `InsightBuilderBase` (the chart helpers are
covered by `setConfig`, see `polySetConfig`). -/
inductive POp where
  | setSolutionId (s : String)
  | setName (s : String)
  | setSlug (s : String)
  | setDescription (s : String)
  | setMode (m : String)
  | addDataset (datasetId joinType : String) (joinOn : Option (List JVal))
  | addSelect (columnId : String) (datasetId aggregate label idArg : Option String)
  | addFilter (columnId operator : String) (value : JVal) (datasetId : Option String)
  | addOrderBy (columnId : String) (datasetId aggregate : Option String) (direction : String)
  | setLimit (limit : Int)
  | addFilterDefs (fs : List WhereDef)
  | addSelectDefs (ss : List SelectDef)
  | setConfig (v : JVal)
  | setBigNumber (m : SelectDef) (aggregate title subtitle : String)

/-- Apply one shared base operation. -/
def applyPOp : POp → PolyCore → Option IErr × PolyCore
  | .setSolutionId s => polySetSolutionId s
  | .setName s => polySetName s
  | .setSlug s => polySetSlug s
  | .setDescription s => polySetDescription s
  | .setMode m => polySetMode m
  | .addDataset d jt jo => polyAddDataset d jt jo
  | .addSelect c ds ag lb idA => polyAddSelect c ds ag lb idA
  | .addFilter c op v ds => polyAddFilter c op v ds
  | .addOrderBy c ds ag dir => polyAddOrderBy c ds ag dir
  | .setLimit n => polySetLimit n
  | .addFilterDefs fs => polyAddFilterDefs fs
  | .addSelectDefs ss => polyAddSelectDefs ss
  | .setConfig v => polySetConfig v
  | .setBigNumber m ag t st => polySetBigNumber m ag t st

/-! ## Current-generation builder: `polyteia_sdk_python.InsightBuilder` -/

/-- State of the current-generation `InsightBuilder`: the shared core
plus the `SqlEditorDef` (SQL string and variable list) and the pivot
spec of `InsightDef`/`QueryDef`.  (`InsightDef.id` is never set by any
operation nor emitted by `build`; it is omitted.) -/
structure PState where
  core : PolyCore
  sqlString : String
  sqlVariables : List VariableDef
  pivot : PivotDef
deriving Repr

/-- Fresh `InsightBuilder()` state. -/
def pInit : PState :=
  { core := polyCoreInit, sqlString := "", sqlVariables := [],
    pivot := defaultPivot }

/-- `InsightBuilder.set_sql`. -/
def pSetSql (sql : String) (s : PState) : Option IErr × PState :=
  (none, { s with sqlString := sql })

/-- `InsightBuilder.add_sql_variable`: appends a `VariableDef`. -/
def pAddSqlVariable (v : VariableDef) (s : PState) : Option IErr × PState :=
  (none, { s with sqlVariables := s.sqlVariables ++ [v] })

/-- Operations of the current-generation `InsightBuilder`: the inherited
base operations plus `set_sql` and `add_sql_variable`. -/
inductive PCOp where
  | base (o : POp)
  | setSql (sql : String)
  | addSqlVariable (v : VariableDef)

/-- Apply one current-generation operation. -/
def applyPCOp : PCOp → PState → Option IErr × PState
  | .base o, s =>
    let (r, c) := applyPOp o s.core
    (r, { s with core := c })
  | .setSql sql, s => pSetSql sql s
  | .addSqlVariable v, s => pAddSqlVariable v s

/-- Run a sequence of current-generation operations, stopping at the
first raised error (a raising call aborts the Python call sequence). -/
def runPC : List PCOp → PState → Option IErr × PState
  | [], s => (none, s)
  | o :: rest, s =>
    match applyPCOp o s with
    | (none, s') => runPC rest s'
    | (some e, s') => (some e, s')

/-- Wire output of `InsightBuilder.build` (the nested dict flattened
into one record: `query.version` = `queryVersion`,
`query.sqlEditor.sqlString` = `sqlString`, `query.queryBuilder.version`
= `qbVersion`, and so on). -/
structure PWire where
  solutionId : String
  name : String
  description : String
  slug : String
  queryVersion : Int
  mode : String
  sqlString : String
  sqlVariables : List VariableDef
  qbVersion : Int
  datasets : List DatasetDef
  select : List SelectDef
  whereL : List WhereDef
  orderBy : List OrderByDef
  pivot : PivotDef
  limit : Option Int
  config : Option JVal
deriving Repr

/-- `InsightBuilder.build`: a pure projection of the accumulated state
(the Python method reads attributes and constructs a fresh dict; it
assigns nothing), modelled — like every method — as returning the state
the object is left in. -/
def pBuild (s : PState) : PWire × PState :=
  ({ solutionId := s.core.solutionId, name := s.core.name,
     description := s.core.description, slug := s.core.slug,
     queryVersion := 4, mode := s.core.mode, sqlString := s.sqlString,
     sqlVariables := s.sqlVariables, qbVersion := 3,
     datasets := s.core.qb.datasets, select := s.core.qb.select,
     whereL := s.core.qb.whereL, orderBy := s.core.qb.orderBy,
     pivot := s.pivot, limit := s.core.qb.limit,
     config := s.core.config }, s)

/-! ## Deprecated polyteia generation: `polyteia_sdk_python.InsightBuilderV3` -/

/-- State of the deprecated polyteia `InsightBuilderV3`: the shared core
plus the raw-SQL string of the `sqlEditor` dict (no variables, no
pivot). -/
structure P3State where
  core : PolyCore
  sqlString : String
deriving Repr

/-- Fresh polyteia `InsightBuilderV3()` state. -/
def p3Init : P3State := { core := polyCoreInit, sqlString := "" }

/-- Polyteia `InsightBuilderV3.set_sql` (writes the `sqlString` key of
the `sqlEditor` dict). -/
def p3SetSql (sql : String) (s : P3State) : Option IErr × P3State :=
  (none, { s with sqlString := sql })

/-- Operations of the deprecated polyteia `InsightBuilderV3`. -/
inductive P3Op where
  | base (o : POp)
  | setSql (sql : String)

/-- Apply one deprecated-polyteia operation. -/
def applyP3Op : P3Op → P3State → Option IErr × P3State
  | .base o, s =>
    let (r, c) := applyPOp o s.core
    (r, { s with core := c })
  | .setSql sql, s => p3SetSql sql s

/-- Run a sequence of deprecated-polyteia operations. -/
def runP3 : List P3Op → P3State → Option IErr × P3State
  | [], s => (none, s)
  | o :: rest, s =>
    match applyP3Op o s with
    | (none, s') => runP3 rest s'
    | (some e, s') => (some e, s')

/-- Wire output of the polyteia `InsightBuilderV3.build` (flattened) —
query version 3, query-builder version 2, a slug, no variables, no
pivot. -/
structure P3Wire where
  solutionId : String
  name : String
  description : String
  slug : String
  queryVersion : Int
  mode : String
  sqlString : String
  qbVersion : Int
  datasets : List DatasetDef
  select : List SelectDef
  whereL : List WhereDef
  orderBy : List OrderByDef
  limit : Option Int
  config : Option JVal
deriving Repr

/-- Polyteia `InsightBuilderV3.build`: pure projection. -/
def p3Build (s : P3State) : P3Wire × P3State :=
  ({ solutionId := s.core.solutionId, name := s.core.name,
     description := s.core.description, slug := s.core.slug,
     queryVersion := 3, mode := s.core.mode, sqlString := s.sqlString,
     qbVersion := 2, datasets := s.core.qb.datasets,
     select := s.core.qb.select, whereL := s.core.qb.whereL,
     orderBy := s.core.qb.orderBy, limit := s.core.qb.limit,
     config := s.core.config }, s)

/-! ## Oldest generation: `gOS_api_sdk.InsightBuilderV3`

This generation performs no argument validation anywhere (`set_mode`,
`add_filter` and `set_limit` accept any value), and its
`set_big_number` rebuilds the query state. -/

/-- State of the gOS `InsightBuilderV3` (`InsightDef` of
`gOS_api_sdk/insight_factory.py`: no slug). -/
structure GState where
  solutionId : String
  name : String
  description : String
  mode : String
  sqlString : String
  qb : QB
  config : Option JVal
  ctr : Nat
deriving Repr

/-- Fresh gOS `InsightBuilderV3()` state. -/
def gInit : GState :=
  { solutionId := "", name := "", description := "",
    mode := "queryBuilder", sqlString := "", qb := emptyQB,
    config := none, ctr := 0 }

/-- gOS `set_solution_id`. -/
def gSetSolutionId (v : String) (s : GState) : Option IErr × GState :=
  (none, { s with solutionId := v })

/-- gOS `set_name`. -/
def gSetName (v : String) (s : GState) : Option IErr × GState :=
  (none, { s with name := v })

/-- gOS `set_description`. -/
def gSetDescription (v : String) (s : GState) : Option IErr × GState :=
  (none, { s with description := v })

/-- gOS `set_mode`: no validation — any string is stored (the docstring
merely says it "could be" one of the two modes). -/
def gSetMode (m : String) (s : GState) : Option IErr × GState :=
  (none, { s with mode := m })

/-- gOS `set_sql`. -/
def gSetSql (sql : String) (s : GState) : Option IErr × GState :=
  (none, { s with sqlString := sql })

/-- gOS `add_dataset`. -/
def gAddDataset (datasetId : String) (joinType : String)
    (joinOn : Option (List JVal)) (s : GState) : Option IErr × GState :=
  let ds : DatasetDef :=
    { datasetId := datasetId, joinType := joinType, joinOn := joinOn.getD [] }
  (none, { s with qb := { s.qb with datasets := s.qb.datasets ++ [ds] } })

/-- gOS `add_select` (no caller-supplied id in this generation). -/
def gAddSelect (columnId : String) (datasetId : Option String)
    (aggregate : Option String) (label : Option String)
    (s : GState) : Option IErr × GState :=
  let dsId := orElseStr datasetId (firstDatasetId s.qb.datasets)
  let sel : SelectDef :=
    { id := genId s.ctr, datasetId := dsId, columnId := columnId,
      aggregate := aggregate, label := orElseStr label columnId }
  (none, { s with qb := { s.qb with select := s.qb.select ++ [sel] },
                  ctr := s.ctr + 1 })

/-- gOS `add_filter`: NO operator validation — any operator string is
accepted and the predicate appended. -/
def gAddFilter (columnId : String) (operator : String) (value : JVal)
    (datasetId : Option String) (s : GState) : Option IErr × GState :=
  let dsId := orElseStr datasetId (firstDatasetId s.qb.datasets)
  let w : WhereDef :=
    { id := genId s.ctr,
      column := { datasetId := dsId, columnId := columnId, aggregate := none },
      operator := operator, value := value }
  (none, { s with qb := { s.qb with whereL := s.qb.whereL ++ [w] },
                  ctr := s.ctr + 1 })

/-- gOS `add_order_by`. -/
def gAddOrderBy (columnId : String) (datasetId : Option String)
    (aggregate : Option String) (direction : String)
    (s : GState) : Option IErr × GState :=
  let dsId := orElseStr datasetId (firstDatasetId s.qb.datasets)
  let ob : OrderByDef :=
    { id := genId s.ctr,
      column := { datasetId := dsId, columnId := columnId, aggregate := aggregate },
      direction := direction }
  (none, { s with qb := { s.qb with orderBy := s.qb.orderBy ++ [ob] },
                  ctr := s.ctr + 1 })

/-- gOS `add_filter_defs`. -/
def gAddFilterDefs (fs : List WhereDef) (s : GState) : Option IErr × GState :=
  (none, { s with qb := { s.qb with whereL := s.qb.whereL ++ fs } })

/-- gOS `add_select_defs`. -/
def gAddSelectDefs (ss : List SelectDef) (s : GState) : Option IErr × GState :=
  (none, { s with qb := { s.qb with select := s.qb.select ++ ss } })

/-- gOS `set_limit`: NO validation — any integer (negative included) is
stored. -/
def gSetLimit (limit : Int) (s : GState) : Option IErr × GState :=
  (none, { s with qb := { s.qb with limit := some limit } })

/-- gOS `set_config` (the chart helpers `set_bar_chart`,
`set_line_chart`, `set_pie_chart`, `set_table` and `set_map_chart` of
this generation, like the polyteia ones, only assign a config dict
computed from their arguments, so they are covered by this operation
quantified over the stored value). -/
def gSetConfig (v : JVal) (s : GState) : Option IErr × GState :=
  (none, { s with config := some v })

/-- gOS `set_big_number`: stores the big-number config, then REBUILDS
the query state.  In `sqlEditor` mode `self._insight.query` is replaced
by a fresh `QueryDef` keeping only the SQL string (the query-builder
lists and limit are reset to their defaults); otherwise
`self._insight.query.queryBuilder` is replaced by a `QueryBuilderDef`
holding only the measure column's dataset and projection, with
`limit=1000` (previously added datasets, projections, predicates and
sort specs are discarded). -/
def gSetBigNumber (m : SelectDef) (aggregate title subtitle : String)
    (s : GState) : Option IErr × GState :=
  let s := { s with config := some (bigNumberConfig m aggregate title subtitle) }
  if s.mode = "sqlEditor" then
    (none, { s with qb := emptyQB })
  else
    (none, { s with qb :=
      { datasets := [{ datasetId := m.datasetId, joinType := "inner", joinOn := [] }],
        select := [m], whereL := [], orderBy := [], limit := some 1000 } })

/-- Operations of the gOS `InsightBuilderV3`. -/
inductive GOp where
  | setSolutionId (v : String)
  | setName (v : String)
  | setDescription (v : String)
  | setMode (m : String)
  | setSql (sql : String)
  | addDataset (datasetId joinType : String) (joinOn : Option (List JVal))
  | addSelect (columnId : String) (datasetId aggregate label : Option String)
  | addFilter (columnId operator : String) (value : JVal) (datasetId : Option String)
  | addOrderBy (columnId : String) (datasetId aggregate : Option String) (direction : String)
  | addFilterDefs (fs : List WhereDef)
  | addSelectDefs (ss : List SelectDef)
  | setLimit (limit : Int)
  | setConfig (v : JVal)
  | setBigNumber (m : SelectDef) (aggregate title subtitle : String)

/-- Whether a gOS operation is the query-rebuilding `set_big_number`. -/
def GOp.isBigNumber : GOp → Bool
  | .setBigNumber _ _ _ _ => true
  | _ => false

/-- Apply one gOS operation. -/
def applyGOp : GOp → GState → Option IErr × GState
  | .setSolutionId v => gSetSolutionId v
  | .setName v => gSetName v
  | .setDescription v => gSetDescription v
  | .setMode m => gSetMode m
  | .setSql sql => gSetSql sql
  | .addDataset d jt jo => gAddDataset d jt jo
  | .addSelect c ds ag lb => gAddSelect c ds ag lb
  | .addFilter c op v ds => gAddFilter c op v ds
  | .addOrderBy c ds ag dir => gAddOrderBy c ds ag dir
  | .addFilterDefs fs => gAddFilterDefs fs
  | .addSelectDefs ss => gAddSelectDefs ss
  | .setLimit n => gSetLimit n
  | .setConfig v => gSetConfig v
  | .setBigNumber m ag t st => gSetBigNumber m ag t st

/-- Run a sequence of gOS operations. -/
def runG : List GOp → GState → Option IErr × GState
  | [], s => (none, s)
  | o :: rest, s =>
    match applyGOp o s with
    | (none, s') => runG rest s'
    | (some e, s') => (some e, s')

/-- Wire output of gOS `InsightBuilderV3.build` (flattened) — query
version 3, query-builder version 2, no slug. -/
structure GWire where
  solutionId : String
  name : String
  description : String
  queryVersion : Int
  mode : String
  sqlString : String
  qbVersion : Int
  datasets : List DatasetDef
  select : List SelectDef
  whereL : List WhereDef
  orderBy : List OrderByDef
  limit : Option Int
  config : Option JVal
deriving Repr

/-- gOS `InsightBuilderV3.build`: pure projection. -/
def gBuild (s : GState) : GWire × GState :=
  ({ solutionId := s.solutionId, name := s.name,
     description := s.description, queryVersion := 3, mode := s.mode,
     sqlString := s.sqlString, qbVersion := 2,
     datasets := s.qb.datasets, select := s.qb.select,
     whereL := s.qb.whereL, orderBy := s.qb.orderBy,
     limit := s.qb.limit, config := s.config }, s)

/-! ## Report builder: `gOS_api_sdk.ReportBuilder`

The content tree has depth at most two: `_add_block` appends blocks
either to the top-level `editorState` list or into the currently active
column, and column groups themselves are only ever appended at top level
(by `end_columns` or `build`), never into a column, so columns contain
only leaf blocks.  `_current_column_group` and `_current_column` are
always both set or both `None` in the source (`start_columns` sets
both, `end_columns`/`build` clear both, every reader checks both), so
they are modelled as one optional pair. -/

/-- `TextFormatting` options for a paragraph text run. -/
structure TextFmt where
  bold : Bool
  italic : Bool
  underline : Bool
  strikethrough : Bool
  code : Bool
  highlight : Bool
  color : Option String
  backgroundColor : Option String
deriving Repr

/-- One table cell as constructed by `add_table`: cell type (`th`/`td`)
and text. -/
structure TCell where
  cellType : String
  text : String
deriving Repr

/-- Leaf blocks (everything `_add_block`/`add_widget` can place, all
carrying their generated block id).  The `type` discriminator strings
of the wire format are carried where they are computed from arguments
(`heading` level, `equation` vs `inline_equation`). -/
inductive Leaf where
  | heading (typ id text : String) (align : Option String)
  | para (id text : String) (fmt : Option TextFmt) (align : Option String)
  | listB (id styleType : String) (items : List String)
  | tableB (id : String) (rows : List (List TCell))
  | widget (id insightId : String) (height : Option Int)
  | hr (id : String)
  | link (id url text : String)
  | blockquote (id text : String)
  | codeB (id : String) (language : Option String) (code : String)
  | date (id text : String)
  | toggle (id header : String) (content : List JVal)
  | equation (typ id equation : String)
deriving Repr

/-- One column of a column group. -/
structure ColumnB where
  id : String
  width : String
  children : List Leaf
deriving Repr

/-- Top-level content entries: leaf blocks or flushed column groups. -/
inductive TopBlock where
  | leaf (b : Leaf)
  | group (id : String) (cols : List ColumnB)
deriving Repr

/-- The open column group together with the active column index
(`_current_column_group` and `_current_column`). -/
structure GroupCtx where
  groupId : String
  columns : List ColumnB
  current : Nat
deriving Repr

/-- Errors raised by `ReportBuilder` operations: the two state errors of
`next_column` (raised as plain `Exception` in the source; the
specification calls them `StateError`), the `IndexError` from indexing a
column past the end of the group, and the `AttributeError` from
`add_dataset`'s access to the never-initialized `_metadata`. -/
inductive RErr where
  | noActiveColumnGroup
  | noMoreColumns
  | indexOutOfRange
  | attributeError
deriving Repr, DecidableEq

/-- `ReportBuilder` state. -/
structure RState where
  content : List TopBlock
  name : String
  description : String
  solutionId : String
  organizationId : String
  insights : List String
  colGroup : Option GroupCtx
  ctr : Nat
deriving Repr

/-- Fresh `ReportBuilder()` state. -/
def rInit : RState :=
  { content := [], name := "", description := "", solutionId := "",
    organizationId := "", insights := [], colGroup := none, ctr := 0 }

/-- Append a leaf block to a column's children. -/
def appendChild (c : ColumnB) (b : Leaf) : ColumnB :=
  { c with children := c.children ++ [b] }

/-- `ReportBuilder._add_block`: append to the active column when a
column group is open, else to the top-level content.  Indexing the
column list with `_current_column` past its end (possible after a
failed `next_column`) raises `IndexError` before anything is appended.
(The source's wrap-in-children branch is dead code for builder-made
blocks, which all carry a `children` key.) -/
def reportAddBlock (b : Leaf) (s : RState) : Option RErr × RState :=
  match s.colGroup with
  | some ctx =>
    if h : ctx.current < ctx.columns.length then
      (none, { s with colGroup := some { ctx with
        columns := ctx.columns.set ctx.current
          (appendChild (ctx.columns.get ⟨ctx.current, h⟩) b) } })
    else (some .indexOutOfRange, s)
  | none => (none, { s with content := s.content ++ [.leaf b] })

/-- `ReportBuilder.set_name`. -/
def reportSetName (v : String) (s : RState) : Option RErr × RState :=
  (none, { s with name := v })

/-- `ReportBuilder.set_description`. -/
def reportSetDescription (v : String) (s : RState) : Option RErr × RState :=
  (none, { s with description := v })

/-- `ReportBuilder.set_solution_id`. -/
def reportSetSolutionId (v : String) (s : RState) : Option RErr × RState :=
  (none, { s with solutionId := v })

/-- `ReportBuilder.set_organization_id`. -/
def reportSetOrganizationId (v : String) (s : RState) : Option RErr × RState :=
  (none, { s with organizationId := v })

/-- `ReportBuilder.add_heading` (`typ` is the `HeadingLevel` value
`h1`..`h6`). -/
def reportAddHeading (text typ : String) (align : Option String)
    (s : RState) : Option RErr × RState :=
  reportAddBlock (.heading typ (genId s.ctr) text align) { s with ctr := s.ctr + 1 }

/-- `ReportBuilder.add_text`. -/
def reportAddText (text : String) (fmt : Option TextFmt) (align : Option String)
    (s : RState) : Option RErr × RState :=
  reportAddBlock (.para (genId s.ctr) text fmt align) { s with ctr := s.ctr + 1 }

/-- `ReportBuilder.add_list` (`styleType` is the `ListType` value). -/
def reportAddList (items : List String) (styleType : String)
    (s : RState) : Option RErr × RState :=
  reportAddBlock (.listB (genId s.ctr) styleType items) { s with ctr := s.ctr + 1 }

/-- Cell construction of `add_table`: the first row becomes `th` cells
when `hasHeader`. -/
def mkTableRows (rows : List (List String)) (hasHeader : Bool) : List (List TCell) :=
  rows.enum.map fun p =>
    p.2.map fun cell =>
      { cellType := if p.1 = 0 && hasHeader then "th" else "td", text := cell }

/-- `ReportBuilder.add_table`. -/
def reportAddTable (rows : List (List String)) (hasHeader : Bool)
    (s : RState) : Option RErr × RState :=
  reportAddBlock (.tableB (genId s.ctr) (mkTableRows rows hasHeader))
    { s with ctr := s.ctr + 1 }

/-- `ReportBuilder.add_widget`: registers the insight id in `_insights`
unless already present, then inserts the widget block with the same
open-column/top-level insertion logic that `_add_block` uses (the
source inlines it; on an out-of-range active column the `IndexError` is
raised after the metadata update). -/
def reportAddWidget (insightId : String) (height : Option Int)
    (s : RState) : Option RErr × RState :=
  let w : Leaf := .widget (genId s.ctr) insightId height
  reportAddBlock w
    { s with
      insights := if insightId ∈ s.insights then s.insights
                  else s.insights ++ [insightId],
      ctr := s.ctr + 1 }

/-- `ReportBuilder.add_horizontal_rule`. -/
def reportAddHorizontalRule (s : RState) : Option RErr × RState :=
  reportAddBlock (.hr (genId s.ctr)) { s with ctr := s.ctr + 1 }

/-- `ReportBuilder.add_link`. -/
def reportAddLink (text url : String) (s : RState) : Option RErr × RState :=
  reportAddBlock (.link (genId s.ctr) url text) { s with ctr := s.ctr + 1 }

/-- `ReportBuilder.add_blockquote`. -/
def reportAddBlockquote (text : String) (s : RState) : Option RErr × RState :=
  reportAddBlock (.blockquote (genId s.ctr) text) { s with ctr := s.ctr + 1 }

/-- `ReportBuilder.add_code`. -/
def reportAddCode (code : String) (language : Option String)
    (s : RState) : Option RErr × RState :=
  reportAddBlock (.codeB (genId s.ctr) language code) { s with ctr := s.ctr + 1 }

/-- `ReportBuilder.add_date`. -/
def reportAddDate (d : String) (s : RState) : Option RErr × RState :=
  reportAddBlock (.date (genId s.ctr) d) { s with ctr := s.ctr + 1 }

/-- `ReportBuilder.add_toggle` (the `str` overload of `content` becomes
the single text run `[{"text": content}]`). -/
def reportAddToggle (header : String) (content : List JVal)
    (s : RState) : Option RErr × RState :=
  reportAddBlock (.toggle (genId s.ctr) header content) { s with ctr := s.ctr + 1 }

/-- `ReportBuilder.add_equation`. -/
def reportAddEquation (eq : String) (inline : Bool)
    (s : RState) : Option RErr × RState :=
  reportAddBlock
    (.equation (if inline then "inline_equation" else "equation") (genId s.ctr) eq)
    { s with ctr := s.ctr + 1 }

/-- `ReportBuilder.add_dataset`: the method body reads
`self._metadata["datasets"]`, but `__init__` never creates a
`_metadata` attribute (and no other method does), so the attribute
access raises `AttributeError` unconditionally, before any state is
touched. -/
def reportAddDataset (_datasetId : String) (s : RState) : Option RErr × RState :=
  (some .attributeError, s)

/-- Columns created by `start_columns`, one per width, each with a fresh
id and empty children. -/
def mkColumns (ctr : Nat) (widths : List String) : List ColumnB :=
  widths.enum.map fun p => { id := genId (ctr + p.1), width := p.2, children := [] }

/-- `ReportBuilder.start_columns`: opens a fresh group at column 0
(silently discarding any group already open, as the source does). -/
def reportStartColumns (widths : List String) (s : RState) : Option RErr × RState :=
  (none, { s with
    colGroup := some { groupId := genId s.ctr,
                       columns := mkColumns (s.ctr + 1) widths, current := 0 },
    ctr := s.ctr + 1 + widths.length })

/-- `ReportBuilder.next_column`: raises when no group is open; otherwise
FIRST increments `_current_column`, THEN raises when the incremented
index reaches the column count — the increment is kept in either
case. -/
def reportNextColumn (s : RState) : Option RErr × RState :=
  match s.colGroup with
  | none => (some .noActiveColumnGroup, s)
  | some ctx =>
    let ctx' := { ctx with current := ctx.current + 1 }
    if ctx'.current ≥ ctx.columns.length then
      (some .noMoreColumns, { s with colGroup := some ctx' })
    else (none, { s with colGroup := some ctx' })

/-- Placeholder insertion of `end_columns`: each completely empty column
receives one empty paragraph (with a fresh id); the counter is threaded
through. -/
def fillEmptyCols : List ColumnB → Nat → List ColumnB × Nat
  | [], n => ([], n)
  | c :: rest, n =>
    if c.children.isEmpty then
      let (rest', n') := fillEmptyCols rest (n + 1)
      ({ c with children := [Leaf.para (genId n) "" none none] } :: rest', n')
    else
      let (rest', n') := fillEmptyCols rest n
      (c :: rest', n')

/-- `ReportBuilder.end_columns`: flushes the open group (after
placeholder insertion) to the top-level content; a no-op when no group
is open. -/
def reportEndColumns (s : RState) : Option RErr × RState :=
  match s.colGroup with
  | none => (none, s)
  | some ctx =>
    let p := fillEmptyCols ctx.columns s.ctr
    (none, { s with content := s.content ++ [.group ctx.groupId p.1],
                    colGroup := none, ctr := p.2 })

/-- Wire output of `ReportBuilder.build`. -/
structure RWire where
  organizationId : String
  solutionId : String
  name : String
  description : String
  content : List TopBlock
  metadataInsights : List String
deriving Repr

/-- The dict `build` returns, as a projection of the state.  Its
`metadata` carries ONLY the insight list — no dataset list is ever
emitted. -/
def mkRWire (s : RState) : RWire :=
  { organizationId := s.organizationId, solutionId := s.solutionId,
    name := s.name, description := s.description, content := s.content,
    metadataInsights := s.insights }

/-- `ReportBuilder.build`: first flushes any still-open column group
into the content (WITHOUT the placeholder insertion that `end_columns`
performs), clearing the group fields — a genuine state mutation — then
returns the wire dict. -/
def reportBuild (s : RState) : RWire × RState :=
  match s.colGroup with
  | some ctx =>
    let s' := { s with content := s.content ++ [.group ctx.groupId ctx.columns],
                       colGroup := none }
    (mkRWire s', s')
  | none => (mkRWire s, s)

/-- Operations of the `ReportBuilder`. -/
inductive ROp where
  | setName (v : String)
  | setDescription (v : String)
  | setSolutionId (v : String)
  | setOrganizationId (v : String)
  | addHeading (text typ : String) (align : Option String)
  | addText (text : String) (fmt : Option TextFmt) (align : Option String)
  | addList (items : List String) (styleType : String)
  | addTable (rows : List (List String)) (hasHeader : Bool)
  | addWidget (insightId : String) (height : Option Int)
  | addHorizontalRule
  | addLink (text url : String)
  | addBlockquote (text : String)
  | addCode (code : String) (language : Option String)
  | addDate (d : String)
  | addToggle (header : String) (content : List JVal)
  | addEquation (eq : String) (inline : Bool)
  | addDataset (datasetId : String)
  | startColumns (widths : List String)
  | nextColumn
  | endColumns

/-- Apply one report operation. -/
def applyROp : ROp → RState → Option RErr × RState
  | .setName v => reportSetName v
  | .setDescription v => reportSetDescription v
  | .setSolutionId v => reportSetSolutionId v
  | .setOrganizationId v => reportSetOrganizationId v
  | .addHeading t ty a => reportAddHeading t ty a
  | .addText t f a => reportAddText t f a
  | .addList it st => reportAddList it st
  | .addTable r h => reportAddTable r h
  | .addWidget i h => reportAddWidget i h
  | .addHorizontalRule => reportAddHorizontalRule
  | .addLink t u => reportAddLink t u
  | .addBlockquote t => reportAddBlockquote t
  | .addCode c l => reportAddCode c l
  | .addDate d => reportAddDate d
  | .addToggle h c => reportAddToggle h c
  | .addEquation e i => reportAddEquation e i
  | .addDataset d => reportAddDataset d
  | .startColumns w => reportStartColumns w
  | .nextColumn => reportNextColumn
  | .endColumns => reportEndColumns

/-- Run a sequence of report operations, stopping at the first raised
error. -/
def runR : List ROp → RState → Option RErr × RState
  | [], s => (none, s)
  | o :: rest, s =>
    match applyROp o s with
    | (none, s') => runR rest s'
    | (some e, s') => (some e, s')

/-- Number of widget blocks in a leaf (0 or 1). -/
def leafWidgets : Leaf → Nat
  | .widget _ _ _ => 1
  | _ => 0

/-- Number of widget blocks in a column. -/
def colWidgets (c : ColumnB) : Nat := (c.children.map leafWidgets).sum

/-- Number of widget blocks in a top-level content entry. -/
def topWidgets : TopBlock → Nat
  | .leaf b => leafWidgets b
  | .group _ cols => (cols.map colWidgets).sum

/-- Total number of widget blocks held by a builder state (flushed
content plus the still-open column group). -/
def widgetTotal (s : RState) : Nat :=
  (s.content.map topWidgets).sum +
    (match s.colGroup with
     | some ctx => (ctx.columns.map colWidgets).sum
     | none => 0)

/-! ## Theorems

One theorem per claim of the specification review, with supporting
lemmas. -/

/-- C1: build() called twice in a row yields structurally equal output,
and may be called multiple times, for every builder (the current
`InsightBuilder`, both `InsightBuilderV3` generations, and the
`ReportBuilder`) in every state.  For the insight builders `build` also
leaves the state untouched; for the `ReportBuilder` the first `build`
may flush an open column group, but its result state is a fixed point,
so the second (and every later) call returns the same output. -/
theorem build_idempotent :
    (∀ s : PState, (pBuild s).2 = s ∧ (pBuild ((pBuild s).2)).1 = (pBuild s).1) ∧
    (∀ s : P3State, (p3Build s).2 = s ∧ (p3Build ((p3Build s).2)).1 = (p3Build s).1) ∧
    (∀ s : GState, (gBuild s).2 = s ∧ (gBuild ((gBuild s).2)).1 = (gBuild s).1) ∧
    (∀ s : RState,
      (reportBuild ((reportBuild s).2)).1 = (reportBuild s).1 ∧
      (reportBuild ((reportBuild s).2)).2 = (reportBuild s).2) := by
  refine ⟨fun s => ⟨rfl, rfl⟩, fun s => ⟨rfl, rfl⟩, fun s => ⟨rfl, rfl⟩, fun s => ?_⟩
  cases h : s.colGroup <;> simp [reportBuild, h]

/-- C7: `ReportBuilder.add_dataset` does NOT register the dataset id —
it raises `AttributeError` on every call (its body reads
`self._metadata`, which `__init__` never creates), leaving the builder
unchanged; the built document's metadata carries only the insight
list. -/
theorem report_add_dataset_raises_attribute_error :
    (reportAddDataset "ds1" rInit).1 = some RErr.attributeError ∧
    (reportAddDataset "ds1" rInit).2 = rInit ∧
    (reportBuild rInit).1.metadataInsights = [] :=
  ⟨rfl, rfl, rfl⟩

/-- C9: `next_column` raises exactly when no column group is open or
when no further column exists (the active index is at — or, in the
degenerate reachable states, past — the last column of the open group);
in every other column-group state it succeeds and advances the active
column by one, leaving the content untouched. -/
theorem next_column_error_conditions (s : RState) :
    (((reportNextColumn s).1 ≠ none) ↔
      s.colGroup = none ∨
        ∃ ctx, s.colGroup = some ctx ∧ ctx.columns.length ≤ ctx.current + 1) ∧
    (∀ ctx, s.colGroup = some ctx → ctx.current + 1 < ctx.columns.length →
      (reportNextColumn s).1 = none ∧
      (reportNextColumn s).2.colGroup = some { ctx with current := ctx.current + 1 } ∧
      (reportNextColumn s).2.content = s.content) := by
  constructor
  · cases h : s.colGroup with
    | none => simp [reportNextColumn, h]
    | some ctx =>
      by_cases hc : ctx.columns.length ≤ ctx.current + 1 <;>
        simp [reportNextColumn, h, ge_iff_le, hc]
  · intro ctx hg hlt
    have hc : ¬ ctx.columns.length ≤ ctx.current + 1 := by omega
    simp [reportNextColumn, hg, ge_iff_le, hc]

/-- The column-group context of a fresh `start_columns(["50%","50%"])`
call on a fresh builder, at the given active column (used to
instantiate the state-machine theorems). -/
def twoColCtx (k : Nat) : GroupCtx :=
  { groupId := "id-0",
    columns := [{ id := "id-1", width := "50%", children := [] },
                { id := "id-2", width := "50%", children := [] }],
    current := k }

/-- C9 witness: on a fresh two-column group `next_column` succeeds and
advances to column 1; at column 1 of the two-column group it raises;
with no open group it raises. -/
theorem next_column_error_conditions_witness :
    (reportNextColumn (reportStartColumns ["50%", "50%"] rInit).2).1 = none ∧
    (reportNextColumn
      (reportNextColumn (reportStartColumns ["50%", "50%"] rInit).2).2).1 ≠ none ∧
    (reportNextColumn rInit).1 ≠ none := by
  refine ⟨?_, ?_, ?_⟩
  · exact ((next_column_error_conditions
      (reportStartColumns ["50%", "50%"] rInit).2).2 (twoColCtx 0) rfl (by decide)).1
  · exact (next_column_error_conditions
      (reportNextColumn (reportStartColumns ["50%", "50%"] rInit).2).2).1.mpr
      (Or.inr ⟨twoColCtx 1, rfl, by decide⟩)
  · exact (next_column_error_conditions rInit).1.mpr (Or.inl rfl)

/-- C10: a `next_column` that raises at the last column is not atomic:
the active index is still advanced past the end of the column list, the
state differs from the one before the call, and every later
block-adding operation (`_add_block`, e.g. `add_text`) on the broken
builder raises the out-of-range index error and appends nothing. -/
theorem failed_next_column_breaks_builder (s : RState) (ctx : GroupCtx)
    (hg : s.colGroup = some ctx) (hlast : ctx.current + 1 = ctx.columns.length) :
    (reportNextColumn s).1 = some RErr.noMoreColumns ∧
    (reportNextColumn s).2.colGroup = some { ctx with current := ctx.current + 1 } ∧
    (reportNextColumn s).2 ≠ s ∧
    (∀ b : Leaf,
      (reportAddBlock b (reportNextColumn s).2).1 = some RErr.indexOutOfRange ∧
      (reportAddBlock b (reportNextColumn s).2).2 = (reportNextColumn s).2) ∧
    (∀ (text : String) (fmt : Option TextFmt) (align : Option String),
      (reportAddText text fmt align (reportNextColumn s).2).1
        = some RErr.indexOutOfRange ∧
      (reportAddText text fmt align (reportNextColumn s).2).2.content
        = (reportNextColumn s).2.content ∧
      (reportAddText text fmt align (reportNextColumn s).2).2.colGroup
        = (reportNextColumn s).2.colGroup) := by
  have hc : ctx.columns.length ≤ ctx.current + 1 := by omega
  have hstep : reportNextColumn s =
      (some RErr.noMoreColumns,
        { s with colGroup := some { ctx with current := ctx.current + 1 } }) := by
    simp [reportNextColumn, hg, ge_iff_le, hc]
  have hidx : ¬ ctx.current + 1 < ctx.columns.length := by omega
  refine ⟨by rw [hstep], by rw [hstep], ?_, ?_, ?_⟩
  · rw [hstep]
    intro h
    have h2 := congrArg RState.colGroup h
    rw [hg] at h2
    have h3 := congrArg GroupCtx.current (Option.some.inj h2)
    simp at h3
  · intro b
    rw [hstep]
    simp [reportAddBlock, hidx]
  · intro text fmt align
    rw [hstep]
    simp [reportAddText, reportAddBlock, hidx]

/-- C10 witness: at the last column of a fresh two-column group the
raising `next_column` leaves the index out of range and a following
`add_text` raises instead of appending. -/
theorem failed_next_column_breaks_builder_witness :
    (reportNextColumn
      (reportNextColumn (reportStartColumns ["50%", "50%"] rInit).2).2).1
      = some RErr.noMoreColumns ∧
    (reportAddText "x" none none
      (reportNextColumn
        (reportNextColumn (reportStartColumns ["50%", "50%"] rInit).2).2).2).1
      = some RErr.indexOutOfRange := by
  have h := failed_next_column_breaks_builder
    (reportNextColumn (reportStartColumns ["50%", "50%"] rInit).2).2
    (twoColCtx 1) rfl rfl
  exact ⟨h.1, (h.2.2.2.2 "x" none none).1⟩

/-- C3 counterexample: on the gOS `InsightBuilderV3`, `add_filter` with
an operator outside the fixed enumeration raises nothing and appends
the predicate — refuting the claim that every insight builder raises
`InvalidArgument` exactly for operators outside the set. -/
theorem gos_add_filter_accepts_invalid_operator :
    (gAddFilter "col" "not_a_real_operator" (.str "v") none gInit).1 = none ∧
    ((gAddFilter "col" "not_a_real_operator" (.str "v") none gInit).2.qb.whereL.map
      WhereDef.operator) = ["not_a_real_operator"] ∧
    "not_a_real_operator" ∉ validFilterOperators :=
  ⟨rfl, rfl, by decide⟩

/-- C3 amended: on the polyteia builders (the shared
`InsightBuilderBase.add_filter`), `add_filter` raises `InvalidArgument`
exactly when the operator is outside the fixed enumeration — the error
is raised at the call itself, leaving the builder unchanged (nothing is
deferred to `build`), and every operator in the set is accepted,
appending one predicate with that operator; the deprecated gOS
`InsightBuilderV3.add_filter` performs no validation and accepts every
operator. -/
theorem add_filter_operator_validation :
    (∀ (col op : String) (v : JVal) (ds : Option String) (c : PolyCore),
      ((polyAddFilter col op v ds c).1 = some IErr.invalidArgument ↔
        op ∉ validFilterOperators) ∧
      (op ∉ validFilterOperators → (polyAddFilter col op v ds c).2 = c) ∧
      (op ∈ validFilterOperators →
        (polyAddFilter col op v ds c).1 = none ∧
        ∃ w, (polyAddFilter col op v ds c).2.qb.whereL = c.qb.whereL ++ [w] ∧
          w.operator = op)) ∧
    (∀ (col op : String) (v : JVal) (ds : Option String) (t : GState),
      (gAddFilter col op v ds t).1 = none ∧
      ∃ w, (gAddFilter col op v ds t).2.qb.whereL = t.qb.whereL ++ [w] ∧
        w.operator = op) := by
  constructor
  · intro col op v ds c
    by_cases h : op ∈ validFilterOperators <;>
      simp [polyAddFilter, h]
  · intro col op v ds t
    simp [gAddFilter]

/-- C3 amended witness: a rejected operator leaves the fresh polyteia
core unchanged, and an accepted one appends a predicate. -/
theorem add_filter_operator_validation_witness :
    ((polyAddFilter "col" "not_a_real_operator" (.str "v") none polyCoreInit).2
      = polyCoreInit) ∧
    ((polyAddFilter "col" "equals" (.str "v") none polyCoreInit).1 = none ∧
      ∃ w, (polyAddFilter "col" "equals" (.str "v") none polyCoreInit).2.qb.whereL
        = polyCoreInit.qb.whereL ++ [w] ∧ w.operator = "equals") :=
  ⟨(add_filter_operator_validation.1 "col" "not_a_real_operator" (.str "v") none
      polyCoreInit).2.1 (by decide),
   (add_filter_operator_validation.1 "col" "equals" (.str "v") none
      polyCoreInit).2.2 (by decide)⟩

/-- C4 counterexample: on the gOS `InsightBuilderV3`, `set_mode` with a
string outside {queryBuilder, sqlEditor} raises nothing and stores the
bogus mode — refuting the claim for every insight builder. -/
theorem gos_set_mode_accepts_invalid_mode :
    (gSetMode "bogus" gInit).1 = none ∧
    (gSetMode "bogus" gInit).2.mode = "bogus" ∧
    "bogus" ∉ validModes :=
  ⟨rfl, rfl, by decide⟩

/-- C4 amended: on the polyteia builders (`InsightBuilderBase.set_mode`)
`set_mode` raises `InvalidArgument` exactly when the mode is outside
{queryBuilder, sqlEditor}, leaving the builder unchanged on error and
storing the mode on success; the deprecated gOS
`InsightBuilderV3.set_mode` performs no validation and stores any
string. -/
theorem set_mode_validation :
    (∀ (m : String) (c : PolyCore),
      ((polySetMode m c).1 = some IErr.invalidArgument ↔ m ∉ validModes) ∧
      (m ∉ validModes → (polySetMode m c).2 = c) ∧
      (m ∈ validModes →
        (polySetMode m c).1 = none ∧ (polySetMode m c).2.mode = m)) ∧
    (∀ (m : String) (t : GState),
      (gSetMode m t).1 = none ∧ (gSetMode m t).2.mode = m) := by
  constructor
  · intro m c
    by_cases h : m ∈ validModes <;> simp [polySetMode, h]
  · intro m t
    exact ⟨rfl, rfl⟩

/-- C4 amended witness: `set_mode("bogus")` is rejected (state
unchanged) and both valid modes are accepted and stored on the fresh
polyteia core. -/
theorem set_mode_validation_witness :
    ((polySetMode "bogus" polyCoreInit).2 = polyCoreInit) ∧
    ((polySetMode "sqlEditor" polyCoreInit).1 = none ∧
      (polySetMode "sqlEditor" polyCoreInit).2.mode = "sqlEditor") ∧
    ((polySetMode "queryBuilder" polyCoreInit).1 = none ∧
      (polySetMode "queryBuilder" polyCoreInit).2.mode = "queryBuilder") :=
  ⟨(set_mode_validation.1 "bogus" polyCoreInit).2.1 (by decide),
   (set_mode_validation.1 "sqlEditor" polyCoreInit).2.2 (by decide),
   (set_mode_validation.1 "queryBuilder" polyCoreInit).2.2 (by decide)⟩

/-- C5 counterexample: on the gOS `InsightBuilderV3`, `set_limit(-1)`
raises nothing and stores the negative limit, which `build` then emits
— refuting the claim for every insight builder. -/
theorem gos_set_limit_accepts_negative :
    (gSetLimit (-1) gInit).1 = none ∧
    (gBuild (gSetLimit (-1) gInit).2).1.limit = some (-1) :=
  ⟨rfl, rfl⟩

/-- C5 amended: on the polyteia builders (`InsightBuilderBase.set_limit`)
`set_limit(n)` raises `InvalidArgument` exactly when `n < 0` (leaving
the builder unchanged), and on success the built output's query-builder
`limit` field equals exactly the value passed, in both polyteia
generations; the deprecated gOS `InsightBuilderV3.set_limit` performs no
validation and stores any integer, which its `build` emits. -/
theorem set_limit_validation :
    (∀ (n : Int) (c : PolyCore),
      ((polySetLimit n c).1 = some IErr.invalidArgument ↔ n < 0) ∧
      (n < 0 → (polySetLimit n c).2 = c) ∧
      (0 ≤ n →
        (polySetLimit n c).1 = none ∧ (polySetLimit n c).2.qb.limit = some n)) ∧
    (∀ (n : Int) (s : PState), 0 ≤ n →
      (pBuild { s with core := (polySetLimit n s.core).2 }).1.limit = some n) ∧
    (∀ (n : Int) (s : P3State), 0 ≤ n →
      (p3Build { s with core := (polySetLimit n s.core).2 }).1.limit = some n) ∧
    (∀ (n : Int) (t : GState),
      (gSetLimit n t).1 = none ∧ (gBuild (gSetLimit n t).2).1.limit = some n) := by
  refine ⟨?_, ?_, ?_, ?_⟩
  · intro n c
    by_cases h : n < 0 <;> simp [polySetLimit, h]
  · intro n s h
    have h' : ¬ n < 0 := by omega
    simp [pBuild, polySetLimit, h']
  · intro n s h
    have h' : ¬ n < 0 := by omega
    simp [p3Build, polySetLimit, h']
  · intro n t
    exact ⟨rfl, rfl⟩

/-- C5 amended witness: `set_limit(-1)` is rejected on the fresh
polyteia core; `set_limit(0)` and `set_limit(100)` succeed and
round-trip exactly into the built limit field of the current
generation. -/
theorem set_limit_validation_witness :
    ((polySetLimit (-1) polyCoreInit).2 = polyCoreInit) ∧
    ((polySetLimit 0 polyCoreInit).1 = none) ∧
    ((pBuild { pInit with core := (polySetLimit 0 polyCoreInit).2 }).1.limit
      = some 0) ∧
    ((pBuild { pInit with core := (polySetLimit 100 polyCoreInit).2 }).1.limit
      = some 100) :=
  ⟨(set_limit_validation.1 (-1) polyCoreInit).2.1 (by decide),
   ((set_limit_validation.1 0 polyCoreInit).2.2 (by decide)).1,
   set_limit_validation.2.1 0 pInit (by decide),
   set_limit_validation.2.1 100 pInit (by decide)⟩

/-- Append-only relation between two query-builder states: every element
list of the second extends the corresponding list of the first. -/
def appendOnlyQB (a b : QB) : Prop :=
  (∃ t, b.datasets = a.datasets ++ t) ∧
  (∃ t, b.select = a.select ++ t) ∧
  (∃ t, b.whereL = a.whereL ++ t) ∧
  (∃ t, b.orderBy = a.orderBy ++ t)

/-- A list equal (definitionally) to another extends it. -/
theorem listUnchanged {α : Type _} {X Y : List α} (h : X = Y) :
    ∃ t, X = Y ++ t := ⟨[], by simp [h]⟩

/-- Every query-builder state extends itself. -/
theorem appendOnlyQB_rfl (q : QB) : appendOnlyQB q q :=
  ⟨listUnchanged rfl, listUnchanged rfl, listUnchanged rfl, listUnchanged rfl⟩

/-- Every shared `InsightBuilderBase` operation is append-only on the
query-builder element lists. -/
theorem applyPOp_append_only (o : POp) (c : PolyCore) :
    appendOnlyQB c.qb (applyPOp o c).2.qb := by
  cases o with
  | setMode m =>
    simp only [applyPOp, polySetMode]
    split <;> exact appendOnlyQB_rfl _
  | addDataset d jt jo =>
    exact ⟨⟨_, rfl⟩, listUnchanged rfl, listUnchanged rfl, listUnchanged rfl⟩
  | addSelect c' ds ag lb idA =>
    exact ⟨listUnchanged rfl, ⟨_, rfl⟩, listUnchanged rfl, listUnchanged rfl⟩
  | addFilter c' op v ds =>
    simp only [applyPOp, polyAddFilter]
    split
    · exact ⟨listUnchanged rfl, listUnchanged rfl, ⟨_, rfl⟩, listUnchanged rfl⟩
    · exact appendOnlyQB_rfl _
  | addOrderBy c' ds ag dir =>
    exact ⟨listUnchanged rfl, listUnchanged rfl, listUnchanged rfl, ⟨_, rfl⟩⟩
  | setLimit n =>
    simp only [applyPOp, polySetLimit]
    split
    · exact appendOnlyQB_rfl _
    · exact ⟨listUnchanged rfl, listUnchanged rfl, listUnchanged rfl, listUnchanged rfl⟩
  | addFilterDefs fs =>
    exact ⟨listUnchanged rfl, listUnchanged rfl, ⟨_, rfl⟩, listUnchanged rfl⟩
  | addSelectDefs ss =>
    exact ⟨listUnchanged rfl, ⟨_, rfl⟩, listUnchanged rfl, listUnchanged rfl⟩
  | _ => exact appendOnlyQB_rfl _

/-- C2 counterexample: the gOS `set_big_number` in queryBuilder mode
(the fresh builder's mode) replaces the dataset list: after
`add_dataset("ds1")` it holds only the measure column's dataset, and in
sqlEditor mode it resets the list to empty — an operation that removes
a previously added element. -/
theorem gos_set_big_number_removes_dataset :
    ((gAddDataset "ds1" "inner" none gInit).2.qb.datasets.map
      DatasetDef.datasetId = ["ds1"]) ∧
    (((gSetBigNumber
        { id := "m1", datasetId := "ds2", columnId := "col",
          aggregate := none, label := "lbl" } "sum" "" ""
        (gAddDataset "ds1" "inner" none gInit).2).2).qb.datasets.map
      DatasetDef.datasetId = ["ds2"]) ∧
    (((gSetBigNumber
        { id := "m1", datasetId := "ds2", columnId := "col",
          aggregate := none, label := "lbl" } "sum" "" ""
        (gSetMode "sqlEditor" (gAddDataset "ds1" "inner" none gInit).2).2).2).qb.datasets
      = []) :=
  ⟨rfl, rfl, rfl⟩

/-- C2 amended: construction is append-only — no operation removes a
previously added dataset, projection, predicate, sort spec or SQL
variable — for every operation of the current `InsightBuilder` and of
the polyteia `InsightBuilderV3`, and for every gOS `InsightBuilderV3`
operation except `set_big_number`, which rebuilds the query-builder
state (replacing it in queryBuilder mode, resetting it in sqlEditor
mode). -/
theorem builders_append_only_except_gos_big_number :
    (∀ (o : PCOp) (s : PState),
      appendOnlyQB s.core.qb (applyPCOp o s).2.core.qb ∧
      ∃ t, (applyPCOp o s).2.sqlVariables = s.sqlVariables ++ t) ∧
    (∀ (o : P3Op) (s : P3State),
      appendOnlyQB s.core.qb (applyP3Op o s).2.core.qb) ∧
    (∀ (o : GOp) (s : GState), o.isBigNumber = false →
      appendOnlyQB s.qb (applyGOp o s).2.qb) := by
  refine ⟨?_, ?_, ?_⟩
  · intro o s
    cases o with
    | base o' =>
      rcases h : applyPOp o' s.core with ⟨r, c⟩
      have := applyPOp_append_only o' s.core
      rw [h] at this
      constructor
      · simpa [applyPCOp, h] using this
      · exact ⟨[], by simp [applyPCOp, h]⟩
    | setSql sql => exact ⟨appendOnlyQB_rfl _, ⟨[], by simp [applyPCOp, pSetSql]⟩⟩
    | addSqlVariable v => exact ⟨appendOnlyQB_rfl _, ⟨_, rfl⟩⟩
  · intro o s
    cases o with
    | base o' =>
      rcases h : applyPOp o' s.core with ⟨r, c⟩
      have := applyPOp_append_only o' s.core
      rw [h] at this
      simpa [applyP3Op, h] using this
    | setSql sql => exact appendOnlyQB_rfl _
  · intro o s hbn
    cases o with
    | setBigNumber m ag t st => simp [GOp.isBigNumber] at hbn
    | addDataset d jt jo =>
      exact ⟨⟨_, rfl⟩, listUnchanged rfl, listUnchanged rfl, listUnchanged rfl⟩
    | addSelect c' ds ag lb =>
      exact ⟨listUnchanged rfl, ⟨_, rfl⟩, listUnchanged rfl, listUnchanged rfl⟩
    | addFilter c' op v ds =>
      exact ⟨listUnchanged rfl, listUnchanged rfl, ⟨_, rfl⟩, listUnchanged rfl⟩
    | addOrderBy c' ds ag dir =>
      exact ⟨listUnchanged rfl, listUnchanged rfl, listUnchanged rfl, ⟨_, rfl⟩⟩
    | addFilterDefs fs =>
      exact ⟨listUnchanged rfl, listUnchanged rfl, ⟨_, rfl⟩, listUnchanged rfl⟩
    | addSelectDefs ss =>
      exact ⟨listUnchanged rfl, ⟨_, rfl⟩, listUnchanged rfl, listUnchanged rfl⟩
    | setLimit n =>
      exact ⟨listUnchanged rfl, listUnchanged rfl, listUnchanged rfl, listUnchanged rfl⟩
    | _ => exact appendOnlyQB_rfl _

/-- C2 amended witness: a non-`set_big_number` gOS operation on the
fresh builder is append-only. -/
theorem builders_append_only_witness :
    appendOnlyQB gInit.qb (applyGOp (GOp.setName "x") gInit).2.qb :=
  builders_append_only_except_gos_big_number.2.2 (GOp.setName "x") gInit rfl

/-- A list equal (definitionally) to another equals it with `[]`
appended. -/
theorem eqAppendNil {α : Type _} {X Y : List α} (h : X = Y) : X = Y ++ [] := by
  simp [h]

/-- The datasets appended by one shared base operation: `add_dataset`
appends its dataset, every other operation appends none. -/
def POp.dsAdds : POp → List DatasetDef
  | .addDataset d jt jo => [{ datasetId := d, joinType := jt, joinOn := jo.getD [] }]
  | _ => []

/-- Every shared base operation extends the dataset list by exactly its
`dsAdds` (error branches leave it unchanged). -/
theorem applyPOp_datasets (o : POp) (c : PolyCore) :
    (applyPOp o c).2.qb.datasets = c.qb.datasets ++ o.dsAdds := by
  cases o with
  | addDataset d jt jo => rfl
  | setMode m =>
    simp only [applyPOp, polySetMode]
    split <;> exact eqAppendNil rfl
  | addFilter a b v d =>
    simp only [applyPOp, polyAddFilter]
    split <;> exact eqAppendNil rfl
  | setLimit n =>
    simp only [applyPOp, polySetLimit]
    split <;> exact eqAppendNil rfl
  | _ => exact eqAppendNil rfl

/-- The datasets appended by one current-generation operation. -/
def PCOp.dsAdds : PCOp → List DatasetDef
  | .base o => o.dsAdds
  | _ => []

/-- Per-operation dataset tracking for the current generation. -/
theorem applyPCOp_datasets (o : PCOp) (s : PState) :
    (applyPCOp o s).2.core.qb.datasets = s.core.qb.datasets ++ o.dsAdds := by
  cases o with
  | base o' =>
    rcases h : applyPOp o' s.core with ⟨r, c⟩
    have h2 := applyPOp_datasets o' s.core
    rw [h] at h2
    simpa [applyPCOp, h, PCOp.dsAdds] using h2
  | setSql sql => exact eqAppendNil rfl
  | addSqlVariable v => exact eqAppendNil rfl

/-- The concatenated dataset additions of a current-generation
operation sequence: exactly the datasets passed to `add_dataset`, in
call order. -/
def pcAddedDatasets (ops : List PCOp) : List DatasetDef :=
  (ops.map PCOp.dsAdds).flatten

/-- Over any successfully completed current-generation operation
sequence the dataset list grows by exactly the `add_dataset` calls, in
order. -/
theorem runPC_datasets (ops : List PCOp) :
    ∀ (s s' : PState), runPC ops s = (none, s') →
      s'.core.qb.datasets = s.core.qb.datasets ++ pcAddedDatasets ops := by
  induction ops with
  | nil =>
    intro s s' h
    simp only [runPC, Prod.mk.injEq] at h
    rw [← h.2]
    exact eqAppendNil rfl
  | cons o rest ih =>
    intro s s' h
    simp only [runPC] at h
    rcases ho : applyPCOp o s with ⟨r, t⟩
    rw [ho] at h
    cases r with
    | none =>
      have h2 := ih t s' h
      have h3 := applyPCOp_datasets o s
      rw [ho] at h3
      rw [h2, h3, List.append_assoc]
      simp [pcAddedDatasets]
    | some e => simp at h

/-- The datasets appended by one deprecated-polyteia operation. -/
def P3Op.dsAdds : P3Op → List DatasetDef
  | .base o => o.dsAdds
  | _ => []

/-- Per-operation dataset tracking for the deprecated polyteia
generation. -/
theorem applyP3Op_datasets (o : P3Op) (s : P3State) :
    (applyP3Op o s).2.core.qb.datasets = s.core.qb.datasets ++ o.dsAdds := by
  cases o with
  | base o' =>
    rcases h : applyPOp o' s.core with ⟨r, c⟩
    have h2 := applyPOp_datasets o' s.core
    rw [h] at h2
    simpa [applyP3Op, h, P3Op.dsAdds] using h2
  | setSql sql => exact eqAppendNil rfl

/-- The concatenated dataset additions of a deprecated-polyteia
operation sequence. -/
def p3AddedDatasets (ops : List P3Op) : List DatasetDef :=
  (ops.map P3Op.dsAdds).flatten

/-- Dataset tracking over deprecated-polyteia operation sequences. -/
theorem runP3_datasets (ops : List P3Op) :
    ∀ (s s' : P3State), runP3 ops s = (none, s') →
      s'.core.qb.datasets = s.core.qb.datasets ++ p3AddedDatasets ops := by
  induction ops with
  | nil =>
    intro s s' h
    simp only [runP3, Prod.mk.injEq] at h
    rw [← h.2]
    exact eqAppendNil rfl
  | cons o rest ih =>
    intro s s' h
    simp only [runP3] at h
    rcases ho : applyP3Op o s with ⟨r, t⟩
    rw [ho] at h
    cases r with
    | none =>
      have h2 := ih t s' h
      have h3 := applyP3Op_datasets o s
      rw [ho] at h3
      rw [h2, h3, List.append_assoc]
      simp [p3AddedDatasets]
    | some e => simp at h

/-- The datasets appended by one gOS operation (meaningful for the
non-`set_big_number` operations). -/
def GOp.dsAdds : GOp → List DatasetDef
  | .addDataset d jt jo => [{ datasetId := d, joinType := jt, joinOn := jo.getD [] }]
  | _ => []

/-- Every gOS operation other than `set_big_number` extends the dataset
list by exactly its `dsAdds`. -/
theorem applyGOp_datasets (o : GOp) (hbn : o.isBigNumber = false) (s : GState) :
    (applyGOp o s).2.qb.datasets = s.qb.datasets ++ o.dsAdds := by
  cases o with
  | setBigNumber m ag t st => simp [GOp.isBigNumber] at hbn
  | addDataset d jt jo => rfl
  | _ => exact eqAppendNil rfl

/-- The concatenated dataset additions of a gOS operation sequence. -/
def gAddedDatasets (ops : List GOp) : List DatasetDef :=
  (ops.map GOp.dsAdds).flatten

/-- Dataset tracking over gOS operation sequences free of
`set_big_number`. -/
theorem runG_datasets (ops : List GOp) :
    ∀ (s s' : GState), (∀ o ∈ ops, o.isBigNumber = false) →
      runG ops s = (none, s') →
      s'.qb.datasets = s.qb.datasets ++ gAddedDatasets ops := by
  induction ops with
  | nil =>
    intro s s' _ h
    simp only [runG, Prod.mk.injEq] at h
    rw [← h.2]
    exact eqAppendNil rfl
  | cons o rest ih =>
    intro s s' hbn h
    simp only [runG] at h
    rcases ho : applyGOp o s with ⟨r, t⟩
    rw [ho] at h
    cases r with
    | none =>
      have h2 := ih t s' (fun o' ho' => hbn o' (List.mem_cons_of_mem _ ho')) h
      have h3 := applyGOp_datasets o (hbn o (List.mem_cons_self _ _)) s
      rw [ho] at h3
      rw [h2, h3, List.append_assoc]
      simp [gAddedDatasets]
    | some e => simp at h

/-- C6 counterexample: on the gOS builder, after `add_dataset("ds1")`
(the first — and only — dataset added via `add_dataset`) followed by
`set_big_number` with a measure column of dataset `"ds2"`, a subsequent
`add_select("col_a")` with no explicit dataset resolves to `"ds2"`, not
to the first added dataset `"ds1"` — refuting the claim as universally
stated over builder states. -/
theorem gos_big_number_breaks_first_dataset_default :
    ((gAddSelect "col_a" none none none
        (gSetBigNumber
          { id := "m1", datasetId := "ds2", columnId := "col",
            aggregate := none, label := "lbl" } "sum" "" ""
          (gAddDataset "ds1" "inner" none gInit).2).2).2.qb.select.map
      SelectDef.datasetId) = ["ds2", "ds2"] ∧
    "ds2" ≠ "ds1" :=
  ⟨rfl, by decide⟩

/-- C6 amended: `add_select`, `add_filter` and `add_order_by` with no
explicit dataset always succeed and give the new element the
`datasetId` of the FIRST DATASET CURRENTLY IN THE BUILDER'S DATASET
LIST — the empty string when the list is empty.  That first dataset is
the first one added via `add_dataset` for every successfully completed
operation sequence of the two polyteia builders unconditionally, and of
the gOS builder provided `set_big_number` (which replaces the dataset
list) has not been called. -/
theorem dataset_reference_defaulting :
    (firstDatasetId [] = "") ∧
    (∀ (col : String) (ag lb idA : Option String) (c : PolyCore),
      (polyAddSelect col none ag lb idA c).1 = none ∧
      ∃ sel, (polyAddSelect col none ag lb idA c).2.qb.select
          = c.qb.select ++ [sel] ∧
        sel.datasetId = firstDatasetId c.qb.datasets) ∧
    (∀ (col op : String) (v : JVal) (c : PolyCore), op ∈ validFilterOperators →
      (polyAddFilter col op v none c).1 = none ∧
      ∃ w, (polyAddFilter col op v none c).2.qb.whereL = c.qb.whereL ++ [w] ∧
        w.column.datasetId = firstDatasetId c.qb.datasets) ∧
    (∀ (col : String) (ag : Option String) (dir : String) (c : PolyCore),
      (polyAddOrderBy col none ag dir c).1 = none ∧
      ∃ ob, (polyAddOrderBy col none ag dir c).2.qb.orderBy
          = c.qb.orderBy ++ [ob] ∧
        ob.column.datasetId = firstDatasetId c.qb.datasets) ∧
    (∀ (col : String) (ag lb : Option String) (t : GState),
      (gAddSelect col none ag lb t).1 = none ∧
      ∃ sel, (gAddSelect col none ag lb t).2.qb.select = t.qb.select ++ [sel] ∧
        sel.datasetId = firstDatasetId t.qb.datasets) ∧
    (∀ (col op : String) (v : JVal) (t : GState),
      (gAddFilter col op v none t).1 = none ∧
      ∃ w, (gAddFilter col op v none t).2.qb.whereL = t.qb.whereL ++ [w] ∧
        w.column.datasetId = firstDatasetId t.qb.datasets) ∧
    (∀ (col : String) (ag : Option String) (dir : String) (t : GState),
      (gAddOrderBy col none ag dir t).1 = none ∧
      ∃ ob, (gAddOrderBy col none ag dir t).2.qb.orderBy = t.qb.orderBy ++ [ob] ∧
        ob.column.datasetId = firstDatasetId t.qb.datasets) ∧
    (∀ (ops : List PCOp) (s : PState), runPC ops pInit = (none, s) →
      s.core.qb.datasets = pcAddedDatasets ops) ∧
    (∀ (ops : List P3Op) (s : P3State), runP3 ops p3Init = (none, s) →
      s.core.qb.datasets = p3AddedDatasets ops) ∧
    (∀ (ops : List GOp) (s : GState), (∀ o ∈ ops, o.isBigNumber = false) →
      runG ops gInit = (none, s) → s.qb.datasets = gAddedDatasets ops) := by
  refine ⟨rfl, ?_, ?_, ?_, ?_, ?_, ?_, ?_, ?_, ?_⟩
  · intro col ag lb idA c
    exact ⟨rfl, ⟨_, rfl, rfl⟩⟩
  · intro col op v c hop
    constructor
    · simp [polyAddFilter, hop]
    · simp only [polyAddFilter, if_pos hop]
      exact ⟨_, rfl, rfl⟩
  · intro col ag dir c
    exact ⟨rfl, ⟨_, rfl, rfl⟩⟩
  · intro col ag lb t
    exact ⟨rfl, ⟨_, rfl, rfl⟩⟩
  · intro col op v t
    exact ⟨rfl, ⟨_, rfl, rfl⟩⟩
  · intro col ag dir t
    exact ⟨rfl, ⟨_, rfl, rfl⟩⟩
  · intro ops s h
    have h2 := runPC_datasets ops pInit s h
    simpa [pInit, polyCoreInit, emptyQB] using h2
  · intro ops s h
    have h2 := runP3_datasets ops p3Init s h
    simpa [p3Init, polyCoreInit, emptyQB] using h2
  · intro ops s hbn h
    have h2 := runG_datasets ops gInit s hbn h
    simpa [gInit, emptyQB] using h2

/-- C6 amended witness: after `add_dataset("ds1")` the defaulted
`add_select("col_a")` resolves to `"ds1"` on the polyteia builders, and
a concrete sequence's datasets are exactly its `add_dataset` calls. -/
theorem dataset_reference_defaulting_witness :
    ((polyAddSelect "col_a" none none none none
        (polyAddDataset "ds1" "inner" none polyCoreInit).2).1 = none ∧
      ∃ sel, (polyAddSelect "col_a" none none none none
          (polyAddDataset "ds1" "inner" none polyCoreInit).2).2.qb.select
        = (polyAddDataset "ds1" "inner" none polyCoreInit).2.qb.select ++ [sel] ∧
        sel.datasetId = firstDatasetId
          (polyAddDataset "ds1" "inner" none polyCoreInit).2.qb.datasets) ∧
    ((polyAddFilter "col" "equals" (.str "v") none polyCoreInit).1 = none) ∧
    ((runPC [PCOp.base (POp.addDataset "ds1" "inner" none)] pInit).2.core.qb.datasets
      = pcAddedDatasets [PCOp.base (POp.addDataset "ds1" "inner" none)]) ∧
    ((runG [] gInit).2.qb.datasets = gAddedDatasets []) := by
  refine ⟨?_, ?_, ?_, ?_⟩
  · exact dataset_reference_defaulting.2.1 "col_a" none none none
      (polyAddDataset "ds1" "inner" none polyCoreInit).2
  · exact (dataset_reference_defaulting.2.2.1 "col" "equals" (.str "v")
      polyCoreInit (by decide)).1
  · exact dataset_reference_defaulting.2.2.2.2.2.2.2.1
      [PCOp.base (POp.addDataset "ds1" "inner" none)] _ rfl
  · exact dataset_reference_defaulting.2.2.2.2.2.2.2.2.2 [] _ (by simp) rfl

/-- `_add_block` never touches the insight metadata list. -/
theorem reportAddBlock_insights (b : Leaf) (s : RState) :
    (reportAddBlock b s).2.insights = s.insights := by
  cases h : s.colGroup with
  | none => simp [reportAddBlock, h]
  | some ctx =>
    simp only [reportAddBlock, h]
    split <;> rfl

/-- Each report operation either leaves the insight metadata list
unchanged or (only `add_widget`, on a not-yet-registered id) appends
exactly one new id to it. -/
theorem applyROp_insights (o : ROp) (s : RState) :
    (applyROp o s).2.insights = s.insights ∨
    ∃ i, i ∉ s.insights ∧ (applyROp o s).2.insights = s.insights ++ [i] := by
  cases o with
  | addWidget i hh =>
    by_cases hm : i ∈ s.insights
    · left
      simp [applyROp, reportAddWidget, reportAddBlock_insights, hm]
    · right
      exact ⟨i, hm, by simp [applyROp, reportAddWidget, reportAddBlock_insights, hm]⟩
  | setName v => left; rfl
  | setDescription v => left; rfl
  | setSolutionId v => left; rfl
  | setOrganizationId v => left; rfl
  | addHeading t ty a => left; simp [applyROp, reportAddHeading, reportAddBlock_insights]
  | addText t f a => left; simp [applyROp, reportAddText, reportAddBlock_insights]
  | addList it st => left; simp [applyROp, reportAddList, reportAddBlock_insights]
  | addTable r hh => left; simp [applyROp, reportAddTable, reportAddBlock_insights]
  | addHorizontalRule =>
    left; simp [applyROp, reportAddHorizontalRule, reportAddBlock_insights]
  | addLink t u => left; simp [applyROp, reportAddLink, reportAddBlock_insights]
  | addBlockquote t =>
    left; simp [applyROp, reportAddBlockquote, reportAddBlock_insights]
  | addCode c l => left; simp [applyROp, reportAddCode, reportAddBlock_insights]
  | addDate d => left; simp [applyROp, reportAddDate, reportAddBlock_insights]
  | addToggle hh c => left; simp [applyROp, reportAddToggle, reportAddBlock_insights]
  | addEquation e i =>
    left; simp [applyROp, reportAddEquation, reportAddBlock_insights]
  | addDataset d => left; rfl
  | startColumns w => left; rfl
  | nextColumn =>
    left
    cases h : s.colGroup with
    | none => simp [applyROp, reportNextColumn, h]
    | some ctx =>
      simp only [applyROp, reportNextColumn, h]
      split <;> rfl
  | endColumns =>
    left
    cases h : s.colGroup with
    | none => simp [applyROp, reportEndColumns, h]
    | some ctx => simp [applyROp, reportEndColumns, h]

/-- Report operations preserve distinctness of the insight metadata
list. -/
theorem applyROp_insights_nodup (o : ROp) (s : RState)
    (hn : s.insights.Nodup) : (applyROp o s).2.insights.Nodup := by
  rcases applyROp_insights o s with h | ⟨i, hi, h⟩
  · rw [h]; exact hn
  · rw [h]
    simp [List.nodup_append, hn, hi]

/-- Report operations never remove an id from the insight metadata
list. -/
theorem applyROp_insights_mem (o : ROp) (s : RState) (i : String)
    (hm : i ∈ s.insights) : i ∈ (applyROp o s).2.insights := by
  rcases applyROp_insights o s with h | ⟨j, _, h⟩ <;> rw [h] <;> simp [hm]

/-- Distinctness of the insight metadata list is an invariant of
successfully completed operation sequences. -/
theorem runR_insights_nodup (ops : List ROp) :
    ∀ (s s' : RState), runR ops s = (none, s') →
      s.insights.Nodup → s'.insights.Nodup := by
  induction ops with
  | nil =>
    intro s s' h hn
    simp only [runR, Prod.mk.injEq] at h
    rw [← h.2]; exact hn
  | cons o rest ih =>
    intro s s' h hn
    simp only [runR] at h
    rcases ho : applyROp o s with ⟨r, t⟩
    rw [ho] at h
    cases r with
    | none =>
      have ht : t.insights.Nodup := by
        have := applyROp_insights_nodup o s hn
        rw [ho] at this
        exact this
      exact ih t s' h ht
    | some e => simp at h

/-- Membership in the insight metadata list survives any successfully
completed operation sequence. -/
theorem runR_insights_mem (ops : List ROp) :
    ∀ (s s' : RState) (i : String), runR ops s = (none, s') →
      i ∈ s.insights → i ∈ s'.insights := by
  induction ops with
  | nil =>
    intro s s' i h hm
    simp only [runR, Prod.mk.injEq] at h
    rw [← h.2]; exact hm
  | cons o rest ih =>
    intro s s' i h hm
    simp only [runR] at h
    rcases ho : applyROp o s with ⟨r, t⟩
    rw [ho] at h
    cases r with
    | none =>
      have ht : i ∈ t.insights := by
        have := applyROp_insights_mem o s i hm
        rw [ho] at this
        exact this
      exact ih t s' i h ht
    | some e => simp at h

/-- Appending a block into column `i` raises the widget sum by the
block's widget count. -/
theorem sum_colWidgets_set (cols : List ColumnB) (i : Nat)
    (h : i < cols.length) (b : Leaf) :
    ((cols.set i (appendChild (cols.get ⟨i, h⟩) b)).map colWidgets).sum
      = (cols.map colWidgets).sum + leafWidgets b := by
  induction cols generalizing i with
  | nil => simp at h
  | cons c rest ih =>
    cases i with
    | zero =>
      simp [colWidgets, appendChild]
      omega
    | succ j =>
      have hj : j < rest.length := by simpa using h
      simp only [List.set_cons_succ, List.get_cons_succ, List.map_cons,
        List.sum_cons]
      rw [ih j hj]
      omega

/-- A successful `_add_block` raises the builder's total widget count by
the block's widget count. -/
theorem reportAddBlock_widgetTotal (b : Leaf) (s : RState)
    (h : (reportAddBlock b s).1 = none) :
    widgetTotal (reportAddBlock b s).2 = widgetTotal s + leafWidgets b := by
  cases hg : s.colGroup with
  | none =>
    simp [reportAddBlock, hg, widgetTotal, topWidgets]
  | some ctx =>
    by_cases hlt : ctx.current < ctx.columns.length
    · have hR : widgetTotal s
          = (s.content.map topWidgets).sum + (ctx.columns.map colWidgets).sum := by
        unfold widgetTotal
        rw [hg]
      simp only [reportAddBlock, hg, dif_pos hlt]
      have hL : widgetTotal { s with colGroup := some { ctx with
          columns := ctx.columns.set ctx.current
            (appendChild (ctx.columns.get ⟨ctx.current, hlt⟩) b) } }
          = (s.content.map topWidgets).sum
            + ((ctx.columns.set ctx.current
                (appendChild (ctx.columns.get ⟨ctx.current, hlt⟩) b)).map
              colWidgets).sum := rfl
      rw [hL, hR, sum_colWidgets_set ctx.columns ctx.current hlt b]
      omega
    · simp [reportAddBlock, hg, dif_neg hlt] at h

/-- A successful `add_widget` appends exactly one widget block. -/
theorem reportAddWidget_widgetTotal (i : String) (hh : Option Int) (s : RState)
    (h : (reportAddWidget i hh s).1 = none) :
    widgetTotal (reportAddWidget i hh s).2 = widgetTotal s + 1 := by
  unfold reportAddWidget at h ⊢
  exact reportAddBlock_widgetTotal _ _ h

/-- `add_widget` always registers its insight id (even when the block
insertion then raises). -/
theorem reportAddWidget_mem (i : String) (hh : Option Int) (s : RState) :
    i ∈ (reportAddWidget i hh s).2.insights := by
  unfold reportAddWidget
  rw [reportAddBlock_insights]
  by_cases hm : i ∈ s.insights <;> simp [hm]

/-- The built document's metadata insight list is the builder's insight
list. -/
theorem reportBuild_insights (s : RState) :
    (reportBuild s).1.metadataInsights = s.insights := by
  cases h : s.colGroup <;> simp [reportBuild, mkRWire, h]

/-- C8: widget insight references are deduplicated — after any
successfully completed sequence containing two `add_widget("insight_1")`
calls (with arbitrary interleaved operations) the built metadata holds
exactly one `"insight_1"` entry, while each of the two calls still
appended its own widget block to the content. -/
theorem add_widget_dedupes_insights
    (ops1 ops2 ops3 : List ROp) (h1 h2 : Option Int)
    (s1 s1' s2 s2' s3 : RState)
    (e1 : runR ops1 rInit = (none, s1))
    (e2 : reportAddWidget "insight_1" h1 s1 = (none, s1'))
    (e3 : runR ops2 s1' = (none, s2))
    (e4 : reportAddWidget "insight_1" h2 s2 = (none, s2'))
    (e5 : runR ops3 s2' = (none, s3)) :
    (reportBuild s3).1.metadataInsights.count "insight_1" = 1 ∧
    widgetTotal s1' = widgetTotal s1 + 1 ∧
    widgetTotal s2' = widgetTotal s2 + 1 := by
  have n1 : s1.insights.Nodup := runR_insights_nodup ops1 rInit s1 e1 (by simp [rInit])
  have n1' : s1'.insights.Nodup := by
    have := applyROp_insights_nodup (.addWidget "insight_1" h1) s1 n1
    simp only [applyROp] at this
    rw [e2] at this
    exact this
  have n2 : s2.insights.Nodup := runR_insights_nodup ops2 s1' s2 e3 n1'
  have n2' : s2'.insights.Nodup := by
    have := applyROp_insights_nodup (.addWidget "insight_1" h2) s2 n2
    simp only [applyROp] at this
    rw [e4] at this
    exact this
  have n3 : s3.insights.Nodup := runR_insights_nodup ops3 s2' s3 e5 n2'
  have m2' : "insight_1" ∈ s2'.insights := by
    have := reportAddWidget_mem "insight_1" h2 s2
    rw [e4] at this
    exact this
  have m3 : "insight_1" ∈ s3.insights := runR_insights_mem ops3 s2' s3 "insight_1" e5 m2'
  refine ⟨?_, ?_, ?_⟩
  · rw [reportBuild_insights]
    exact List.count_eq_one_of_mem n3 m3
  · have hw := reportAddWidget_widgetTotal "insight_1" h1 s1 (by rw [e2])
    rw [e2] at hw
    exact hw
  · have hw := reportAddWidget_widgetTotal "insight_1" h2 s2 (by rw [e4])
    rw [e4] at hw
    exact hw

/-- C8 witness: two consecutive `add_widget("insight_1")` calls on a
fresh builder produce exactly one metadata entry and two widget
blocks. -/
theorem add_widget_dedupes_insights_witness :
    (reportBuild
      (reportAddWidget "insight_1" none
        (reportAddWidget "insight_1" none rInit).2).2).1.metadataInsights.count
      "insight_1" = 1 ∧
    widgetTotal (reportAddWidget "insight_1" none rInit).2
      = widgetTotal rInit + 1 ∧
    widgetTotal (reportAddWidget "insight_1" none
        (reportAddWidget "insight_1" none rInit).2).2
      = widgetTotal (reportAddWidget "insight_1" none rInit).2 + 1 :=
  add_widget_dedupes_insights [] [] [] none none
    rInit (reportAddWidget "insight_1" none rInit).2
    (reportAddWidget "insight_1" none rInit).2
    (reportAddWidget "insight_1" none
      (reportAddWidget "insight_1" none rInit).2).2
    (reportAddWidget "insight_1" none
      (reportAddWidget "insight_1" none rInit).2).2
    rfl rfl rfl rfl rfl
